import Mathlib

/-!
Verification development for the `openapiv3` document model and its
v3.1 → v3.0 revision converter.

The shallow embedding below mirrors the Rust sources under `src/v3_0/`
(`reference.rs`, `components.rs`, `server.rs`, `callback.rs`,
`media_type.rs`, `security_scheme.rs`):

* `IndexMap<String, V>` is embedded as an insertion-ordered association
  list `List (String × V)`;
* `serde_json::Value` is embedded as the inductive `Json`;
* a Rust `panic!` inside a conversion is embedded as `Except.error`
  carrying a `ConvError`, with the panic's message string; the two error
  kinds follow the converter's two panic sites (unsupported feature on
  downgrade, structural invariant violation);
* object bodies that do not participate in conversion routing
  (schemas, path items, responses, parameters, examples, request bodies,
  headers, links, encodings, server variables) are embedded as opaque
  one-field wrappers, with field-wise conversions.
-/

namespace OpenAPI

/-- Embedding of `serde_json::Value` (extension values, examples). -/
inductive Json : Type where
  | null : Json
  | bool (b : Bool) : Json
  | num (n : Int) : Json
  | str (s : String) : Json
  | arr (elems : List Json) : Json
  | obj (fields : List (String × Json)) : Json

/-- Inline extension maps: `IndexMap<String, serde_json::Value>`. -/
abbrev Extensions := List (String × Json)

/-- The converter's failure conditions. `unsupportedDowngrade` embeds the
`panic!` on a v3.1 feature with no v3.0 representation (Mutual-TLS);
`invariantViolation` embeds the `panic!` on an input shape the model rules
out (a `$ref` Path Item inside a callback map). -/
inductive ConvError : Type where
  | unsupportedDowngrade (msg : String) : ConvError
  | invariantViolation (msg : String) : ConvError

/-- Whether an `Except` computation succeeded. -/
def isOk {ε α : Type} : Except ε α → Bool
  | .ok _ => true
  | .error _ => false

/-- Fallible entry-by-entry map, embedding a Rust
`iter().map(f).collect()` whose closure may panic: the first failing
entry aborts the whole traversal. -/
def mapE {α β : Type} (f : α → Except ConvError β) : List α → Except ConvError (List β)
  | [] => .ok []
  | x :: xs =>
    match f x with
    | .error e => .error e
    | .ok y =>
      match mapE f xs with
      | .error e => .error e
      | .ok ys => .ok (y :: ys)

namespace v3_1

/-- Modelled from the spec: the newer revision's Reference Cell, the
`v3_1::ReferenceOr<T>` declaration is not under `src/`; the spec defines
the three shapes as holding a reference string, an inline value, and
both (further fields the converter discards are not modelled). -/
inductive ReferenceOr (T : Type) : Type where
  | reference (ref : String) : ReferenceOr T
  | item (value : T) : ReferenceOr T
  | dereferencedReference (ref : String) (item : T) : ReferenceOr T

/-- Modelled from the spec: `v3_1::ApiKeyLocation`, mirrored from the
three variants the converter in `security_scheme.rs` matches on. -/
inductive ApiKeyLocation : Type where
  | query : ApiKeyLocation
  | header : ApiKeyLocation
  | cookie : ApiKeyLocation

/-- Modelled from the spec: `v3_1::OAuth2Flow`, the newer revision's
four-variant tagged flow; fields as destructured by the converter. -/
inductive OAuth2Flow : Type where
  | implicit (authorization_url : String) (refresh_url : Option String)
      (scopes : List (String × String)) : OAuth2Flow
  | password (refresh_url : Option String) (token_url : String)
      (scopes : List (String × String)) : OAuth2Flow
  | clientCredentials (refresh_url : Option String) (token_url : String)
      (scopes : List (String × String)) : OAuth2Flow
  | authorizationCode (authorization_url : String) (token_url : String)
      (refresh_url : Option String) (scopes : List (String × String)) : OAuth2Flow

/-- Modelled from the spec: `v3_1::OAuth2Flows`, four optional flow
slots, as accessed field-by-field by the converter. -/
structure OAuth2Flows : Type where
  implicit : Option OAuth2Flow
  password : Option OAuth2Flow
  client_credentials : Option OAuth2Flow
  authorization_code : Option OAuth2Flow

/-- Modelled from the spec: `v3_1::SecurityScheme`: the older revision's
four variants plus Mutual-TLS, fields as destructured by the converter
(the Mutual-TLS payload carries its description and extensions). -/
inductive SecurityScheme : Type where
  | apiKey (location : ApiKeyLocation) (name : String)
      (description : Option String) (extensions : Extensions) : SecurityScheme
  | http (scheme : String) (bearer_format : Option String)
      (description : Option String) (extensions : Extensions) : SecurityScheme
  | oauth2 (flows : OAuth2Flows) (description : Option String)
      (extensions : Extensions) : SecurityScheme
  | openIdConnect (open_id_connect_url : String) (description : Option String)
      (extensions : Extensions) : SecurityScheme
  | mutualTls (description : Option String) (extensions : Extensions) : SecurityScheme

/-- Modelled from the spec: opaque v3.1 object body (excluded collaborator). -/
structure Response : Type where
  data : String

/-- Modelled from the spec: opaque v3.1 object body. -/
structure Parameter : Type where
  data : String

/-- Modelled from the spec: opaque v3.1 object body. -/
structure Example : Type where
  data : String

/-- Modelled from the spec: opaque v3.1 object body. -/
structure RequestBody : Type where
  data : String

/-- Modelled from the spec: opaque v3.1 object body. -/
structure Header : Type where
  data : String

/-- Modelled from the spec: opaque v3.1 object body (v3.1 schemas appear
plain in the registry, not behind a Reference Cell). -/
structure Schema : Type where
  data : String

/-- Modelled from the spec: opaque v3.1 object body. -/
structure Link : Type where
  data : String

/-- Modelled from the spec: opaque v3.1 Path Item body. -/
structure PathItem : Type where
  data : String

/-- Modelled from the spec: opaque v3.1 encoding body. -/
structure Encoding : Type where
  data : String

/-- Modelled from the spec: opaque v3.1 server variable body. -/
structure ServerVariable : Type where
  data : String

/-- Modelled from the spec: a v3.1 callback map, expression string to
Path Item behind a Reference Cell (type of `callback_from_v3_1`'s input). -/
abbrev Callback := List (String × ReferenceOr PathItem)

/-- Modelled from the spec: `v3_1::Components`, the newer revision's
reusable-object registry, fields as consumed by the converter in
`components.rs` (schemas are plain, not Reference Cells). -/
structure Components : Type where
  security_schemes : List (String × ReferenceOr SecurityScheme)
  responses : List (String × ReferenceOr Response)
  parameters : List (String × ReferenceOr Parameter)
  examples : List (String × ReferenceOr Example)
  request_bodies : List (String × ReferenceOr RequestBody)
  headers : List (String × ReferenceOr Header)
  schemas : List (String × Schema)
  links : List (String × ReferenceOr Link)
  callbacks : List (String × ReferenceOr Callback)
  extensions : Extensions

/-- Modelled from the spec: `v3_1::Server`, with a (possibly empty,
never absent) variable map, as consumed by the converter in `server.rs`. -/
structure Server : Type where
  url : String
  description : Option String
  variables_ : List (String × ServerVariable)
  extensions : Extensions

/-- Modelled from the spec: `v3_1::MediaType`, with a plain optional
schema, as consumed by the converter in `media_type.rs`. -/
structure MediaType : Type where
  schema : Option Schema
  example_ : Option Json
  examples : List (String × ReferenceOr Example)
  encoding : List (String × Encoding)
  extensions : Extensions

/-- Shape test: is this cell the Reference shape? -/
def ReferenceOr.isReference {T : Type} : ReferenceOr T → Bool
  | .reference _ => true
  | _ => false

/-- Does the value contained in an Item or Dereferenced Reference shape
satisfy `p`? (`false` for the Reference shape, which contains no value.) -/
def ReferenceOr.anyItem {T : Type} (p : T → Bool) : ReferenceOr T → Bool
  | .reference _ => false
  | .item t => p t
  | .dereferencedReference _ t => p t

/-- Variant test for the Mutual-TLS security scheme. -/
def SecurityScheme.isMutualTls : SecurityScheme → Bool
  | .mutualTls _ _ => true
  | _ => false

/-- Does this callback map contain an entry whose Path Item sits behind
the Reference shape? -/
def callbackHasRefEntry (cb : Callback) : Bool :=
  cb.any (fun kv => kv.2.isReference)

/-- Does this registry contain a Mutual-TLS scheme inside any security
scheme cell? -/
def Components.hasMutualTls (a : Components) : Bool :=
  a.security_schemes.any (fun kv => kv.2.anyItem SecurityScheme.isMutualTls)

/-- Does this registry contain a Reference-shaped Path Item inside any
callback cell? -/
def Components.hasRefPathItem (a : Components) : Bool :=
  a.callbacks.any (fun kv => kv.2.anyItem callbackHasRefEntry)

end v3_1

/-- `v3_0::ReferenceOr<T>` from `reference.rs`: the older revision's
Reference Cell with its three shapes. -/
inductive ReferenceOr (T : Type) : Type where
  | reference (ref : String) : ReferenceOr T
  | item (value : T) : ReferenceOr T
  | dereferencedReference (ref : String) (item : T) : ReferenceOr T

/-- Shape test: is this cell the Item shape? -/
def ReferenceOr.isItem {T : Type} : ReferenceOr T → Bool
  | .item _ => true
  | _ => false

/-- Shape test: is this cell the Reference shape? -/
def ReferenceOr.isReference {T : Type} : ReferenceOr T → Bool
  | .reference _ => true
  | _ => false

/-- `ReferenceOr::into_item` from `reference.rs`: the contained value for
the Item and Dereferenced Reference shapes, nothing for Reference. -/
def ReferenceOr.into_item {T : Type} : ReferenceOr T → Option T
  | .reference _ => none
  | .item i => some i
  | .dereferencedReference _ i => some i

/-- `ReferenceOr::as_item` from `reference.rs`: the borrowed counterpart
of `into_item` (borrowing is identity in this embedding). -/
def ReferenceOr.as_item {T : Type} : ReferenceOr T → Option T
  | .reference _ => none
  | .item i => some i
  | .dereferencedReference _ i => some i

/-- `ReferenceOr::unbox` from `reference.rs` (boxing is identity in this
embedding): removes one indirection level, preserving the shape. -/
def ReferenceOr.unbox {T : Type} : ReferenceOr T → ReferenceOr T
  | .reference r => .reference r
  | .item boxed => .item boxed
  | .dereferencedReference r i => .dereferencedReference r i

/-- `v3_0::APIKeyLocation` from `security_scheme.rs`. -/
inductive APIKeyLocation : Type where
  | query : APIKeyLocation
  | header : APIKeyLocation
  | cookie : APIKeyLocation

/-- `v3_0::OAuth2Flow` from `security_scheme.rs`. -/
inductive OAuth2Flow : Type where
  | implicit (authorization_url : String) (refresh_url : Option String)
      (scopes : List (String × String)) : OAuth2Flow
  | password (refresh_url : Option String) (token_url : String)
      (scopes : List (String × String)) : OAuth2Flow
  | clientCredentials (refresh_url : Option String) (token_url : String)
      (scopes : List (String × String)) : OAuth2Flow
  | authorizationCode (authorization_url : String) (token_url : String)
      (refresh_url : Option String) (scopes : List (String × String)) : OAuth2Flow

/-- `v3_0::OAuth2Flows` from `security_scheme.rs`: four independently
optional named slots. -/
structure OAuth2Flows : Type where
  implicit : Option OAuth2Flow
  password : Option OAuth2Flow
  client_credentials : Option OAuth2Flow
  authorization_code : Option OAuth2Flow

/-- `v3_0::SecurityScheme` from `security_scheme.rs`: a closed set of
four variants, each carrying its extension map. -/
inductive SecurityScheme : Type where
  | apiKey (location : APIKeyLocation) (name : String)
      (description : Option String) (extensions : Extensions) : SecurityScheme
  | http (scheme : String) (bearer_format : Option String)
      (description : Option String) (extensions : Extensions) : SecurityScheme
  | oauth2 (flows : OAuth2Flows) (description : Option String)
      (extensions : Extensions) : SecurityScheme
  | openIdConnect (open_id_connect_url : String) (description : Option String)
      (extensions : Extensions) : SecurityScheme

/-- Opaque v3.0 object body (excluded collaborator). -/
structure Response : Type where
  data : String

/-- Opaque v3.0 object body. -/
structure Parameter : Type where
  data : String

/-- Opaque v3.0 object body. -/
structure Example : Type where
  data : String

/-- Opaque v3.0 object body. -/
structure RequestBody : Type where
  data : String

/-- Opaque v3.0 object body. -/
structure Header : Type where
  data : String

/-- Opaque v3.0 schema body. -/
structure Schema : Type where
  data : String

/-- Opaque v3.0 object body. -/
structure Link : Type where
  data : String

/-- Opaque v3.0 Path Item body. -/
structure PathItem : Type where
  data : String

/-- Opaque v3.0 encoding body. -/
structure Encoding : Type where
  data : String

/-- Opaque v3.0 server variable body. -/
structure ServerVariable : Type where
  data : String

/-- `v3_0::Callback` from `callback.rs`: an ordered map from expression
string to a plain Path Item (no Reference Cell in the older revision). -/
abbrev Callback := List (String × PathItem)

/-- `v3_0::Components` from `components.rs`: the reusable-object
registry; each kind's sub-map plus the extension map. -/
structure Components : Type where
  security_schemes : List (String × ReferenceOr SecurityScheme)
  responses : List (String × ReferenceOr Response)
  parameters : List (String × ReferenceOr Parameter)
  examples : List (String × ReferenceOr Example)
  request_bodies : List (String × ReferenceOr RequestBody)
  headers : List (String × ReferenceOr Header)
  schemas : List (String × ReferenceOr Schema)
  links : List (String × ReferenceOr Link)
  callbacks : List (String × ReferenceOr Callback)
  extensions : Extensions

/-- `v3_0::Server` from `server.rs`: the variable map is optional
(absent, not empty-present, when there are no variables). -/
structure Server : Type where
  url : String
  description : Option String
  variables_ : Option (List (String × ServerVariable))
  extensions : Extensions

/-- `v3_0::MediaType` from `media_type.rs`: the schema sits behind a
Reference Cell in the older revision. -/
structure MediaType : Type where
  schema : Option (ReferenceOr Schema)
  example_ : Option Json
  examples : List (String × ReferenceOr Example)
  encoding : List (String × Encoding)
  extensions : Extensions

/-- `From<v3_1::ApiKeyLocation> for APIKeyLocation` in `security_scheme.rs`. -/
def APIKeyLocation.from_v3_1 : v3_1.ApiKeyLocation → APIKeyLocation
  | .query => .query
  | .header => .header
  | .cookie => .cookie

/-- `From<v3_1::OAuth2Flow> for OAuth2Flow` in `security_scheme.rs`:
field-for-field per flow kind. -/
def OAuth2Flow.from_v3_1 : v3_1.OAuth2Flow → OAuth2Flow
  | .implicit authorization_url refresh_url scopes =>
      .implicit authorization_url refresh_url scopes
  | .password refresh_url token_url scopes =>
      .password refresh_url token_url scopes
  | .clientCredentials refresh_url token_url scopes =>
      .clientCredentials refresh_url token_url scopes
  | .authorizationCode authorization_url token_url refresh_url scopes =>
      .authorizationCode authorization_url token_url refresh_url scopes

/-- `From<v3_1::OAuth2Flows> for OAuth2Flows` in `security_scheme.rs`:
slot-wise `Option::map` on each of the four flow slots. -/
def OAuth2Flows.from_v3_1 (s : v3_1.OAuth2Flows) : OAuth2Flows :=
  { implicit := s.implicit.map OAuth2Flow.from_v3_1
    password := s.password.map OAuth2Flow.from_v3_1
    client_credentials := s.client_credentials.map OAuth2Flow.from_v3_1
    authorization_code := s.authorization_code.map OAuth2Flow.from_v3_1 }

/-- `From<v3_1::SecurityScheme> for SecurityScheme` in
`security_scheme.rs`. The Mutual-TLS arm is the
`panic!("MutualTLS is not supported in Open API 3.0.x")` site, embedded
as the unsupported-feature-on-downgrade error. -/
def SecurityScheme.from_v3_1 : v3_1.SecurityScheme → Except ConvError SecurityScheme
  | .apiKey location name description extensions =>
      .ok (.apiKey (APIKeyLocation.from_v3_1 location) name description extensions)
  | .http scheme bearer_format description extensions =>
      .ok (.http scheme bearer_format description extensions)
  | .oauth2 flows description extensions =>
      .ok (.oauth2 (OAuth2Flows.from_v3_1 flows) description extensions)
  | .openIdConnect open_id_connect_url description extensions =>
      .ok (.openIdConnect open_id_connect_url description extensions)
  | .mutualTls _ _ =>
      .error (.unsupportedDowngrade "MutualTLS is not supported in Open API 3.0.x")

/-- Conversion of an opaque v3.1 object body (excluded collaborator). -/
def Response.from_v3_1 (x : v3_1.Response) : Response := ⟨x.data⟩

/-- Conversion of an opaque v3.1 object body. -/
def Parameter.from_v3_1 (x : v3_1.Parameter) : Parameter := ⟨x.data⟩

/-- Conversion of an opaque v3.1 object body. -/
def Example.from_v3_1 (x : v3_1.Example) : Example := ⟨x.data⟩

/-- Conversion of an opaque v3.1 object body. -/
def RequestBody.from_v3_1 (x : v3_1.RequestBody) : RequestBody := ⟨x.data⟩

/-- Conversion of an opaque v3.1 object body. -/
def Header.from_v3_1 (x : v3_1.Header) : Header := ⟨x.data⟩

/-- Conversion of an opaque v3.1 schema body. -/
def Schema.from_v3_1 (x : v3_1.Schema) : Schema := ⟨x.data⟩

/-- Conversion of an opaque v3.1 object body. -/
def Link.from_v3_1 (x : v3_1.Link) : Link := ⟨x.data⟩

/-- Conversion of an opaque v3.1 Path Item body. -/
def PathItem.from_v3_1 (x : v3_1.PathItem) : PathItem := ⟨x.data⟩

/-- Conversion of an opaque v3.1 encoding body. -/
def Encoding.from_v3_1 (x : v3_1.Encoding) : Encoding := ⟨x.data⟩

/-- Conversion of an opaque v3.1 server variable body. -/
def ServerVariable.from_v3_1 (x : v3_1.ServerVariable) : ServerVariable := ⟨x.data⟩

/-- `ReferenceOr::from_v3_1` in `reference.rs`, for an infallible inner
conversion `f` (the Rust `X: Into<T>` bound): Reference keeps the
reference string, Item converts the contained value, Dereferenced
Reference drops the reference string and converts into a plain Item. -/
def ReferenceOr.from_v3_1 {X T : Type} (f : X → T) : v3_1.ReferenceOr X → ReferenceOr T
  | .reference r => .reference r
  | .item x => .item (f x)
  | .dereferencedReference _ x => .item (f x)

/-- `ReferenceOr::from_v3_1` in `reference.rs`, for a fallible inner
conversion (the Rust `Into` impl may panic, e.g. on Mutual-TLS): same
shape routing, with the inner failure propagated. -/
def ReferenceOr.from_v3_1E {X T : Type} (f : X → Except ConvError T) :
    v3_1.ReferenceOr X → Except ConvError (ReferenceOr T)
  | .reference r => .ok (.reference r)
  | .item x =>
    match f x with
    | .error e => .error e
    | .ok t => .ok (.item t)
  | .dereferencedReference _ x =>
    match f x with
    | .error e => .error e
    | .ok t => .ok (.item t)

/-- The per-entry step of `callback_from_v3_1` in `callback.rs`: a
Reference-shaped Path Item is the `panic!("PathItems cannot be $ref")`
site, embedded as the structural-invariant-violation error. -/
def callbackEntry (kv : String × v3_1.ReferenceOr v3_1.PathItem) :
    Except ConvError (String × PathItem) :=
  match kv.2 with
  | .reference _ => .error (.invariantViolation "PathItems cannot be $ref")
  | .item i => .ok (kv.1, PathItem.from_v3_1 i)
  | .dereferencedReference _ i => .ok (kv.1, PathItem.from_v3_1 i)

/-- `callback_from_v3_1` in `callback.rs`: entry-by-entry conversion of
a callback map, aborting on the first Reference-shaped Path Item. -/
def callback_from_v3_1 (a : v3_1.Callback) : Except ConvError Callback :=
  mapE callbackEntry a

/-- The per-entry step for `security_schemes` in the `components.rs`
converter: the cell conversion with the possibly-failing scheme
conversion inside. -/
def secSchemeEntry (kv : String × v3_1.ReferenceOr v3_1.SecurityScheme) :
    Except ConvError (String × ReferenceOr SecurityScheme) :=
  match ReferenceOr.from_v3_1E SecurityScheme.from_v3_1 kv.2 with
  | .error e => .error e
  | .ok v => .ok (kv.1, v)

/-- The per-entry step for `callbacks` in the `components.rs` converter:
Item and Dereferenced Reference cells run `callback_from_v3_1` on the
contained map and collapse to Item; Reference cells keep the string. -/
def callbackCellEntry (kv : String × v3_1.ReferenceOr v3_1.Callback) :
    Except ConvError (String × ReferenceOr Callback) :=
  match kv.2 with
  | .item i =>
    match callback_from_v3_1 i with
    | .error e => .error e
    | .ok cb => .ok (kv.1, .item cb)
  | .reference r => .ok (kv.1, .reference r)
  | .dereferencedReference _ i =>
    match callback_from_v3_1 i with
    | .error e => .error e
    | .ok cb => .ok (kv.1, .item cb)

/-- `From<v3_1::Components> for Components` in `components.rs`: each
kind's sub-map is converted entry-by-entry; `schemas` entries are
wrapped as plain Item cells; the two fallible sub-maps
(`security_schemes`, then `callbacks`) abort the whole conversion on
their first failing entry, in field order. -/
def Components.from_v3_1 (a : v3_1.Components) : Except ConvError Components :=
  match mapE secSchemeEntry a.security_schemes with
  | .error e => .error e
  | .ok ss =>
    match mapE callbackCellEntry a.callbacks with
    | .error e => .error e
    | .ok cbs =>
      .ok
        { security_schemes := ss
          responses := a.responses.map
            (fun kv => (kv.1, ReferenceOr.from_v3_1 Response.from_v3_1 kv.2))
          parameters := a.parameters.map
            (fun kv => (kv.1, ReferenceOr.from_v3_1 Parameter.from_v3_1 kv.2))
          examples := a.examples.map
            (fun kv => (kv.1, ReferenceOr.from_v3_1 Example.from_v3_1 kv.2))
          request_bodies := a.request_bodies.map
            (fun kv => (kv.1, ReferenceOr.from_v3_1 RequestBody.from_v3_1 kv.2))
          headers := a.headers.map
            (fun kv => (kv.1, ReferenceOr.from_v3_1 Header.from_v3_1 kv.2))
          schemas := a.schemas.map
            (fun kv => (kv.1, ReferenceOr.item (Schema.from_v3_1 kv.2)))
          links := a.links.map
            (fun kv => (kv.1, ReferenceOr.from_v3_1 Link.from_v3_1 kv.2))
          callbacks := cbs
          extensions := a.extensions }

/-- `From<v3_1::Server> for Server` in `server.rs`: an empty v3.1
variable map becomes an absent (`none`) map, a non-empty one a present
map converted entry-by-entry. -/
def Server.from_v3_1 (s : v3_1.Server) : Server :=
  { url := s.url
    description := s.description
    variables_ :=
      if s.variables_.isEmpty then none
      else some (s.variables_.map (fun kv => (kv.1, ServerVariable.from_v3_1 kv.2)))
    extensions := s.extensions }

/-- `From<v3_1::MediaType> for MediaType` in `media_type.rs`: the plain
optional v3.1 schema is wrapped as an Item cell; examples and encodings
convert entry-by-entry; example and extensions pass through. -/
def MediaType.from_v3_1 (m : v3_1.MediaType) : MediaType :=
  { schema := m.schema.map (fun s => ReferenceOr.item (Schema.from_v3_1 s))
    example_ := m.example_
    examples := m.examples.map
      (fun kv => (kv.1, ReferenceOr.from_v3_1 Example.from_v3_1 kv.2))
    encoding := m.encoding.map (fun kv => (kv.1, Encoding.from_v3_1 kv.2))
    extensions := m.extensions }

/-- The serde `untagged` external form of a Reference Cell, given a
serializer for the contained type (derive semantics for the attributes
in `reference.rs`): the Reference variant's sole field is renamed to
`$ref`; the Item variant serializes as the plain contained object; the
Dereferenced Reference variant, a struct variant with no renames,
serializes as the map of its two named fields. -/
def serializeRefOr {T : Type} (serT : T → Json) : ReferenceOr T → Json
  | .reference r => .obj [("$ref", .str r)]
  | .item t => serT t
  | .dereferencedReference r t => .obj [("reference", .str r), ("item", serT t)]

/-- The kind fields a v3.0 `Components` value emits when serialized,
mirroring the `skip_serializing_if = "IndexMap::is_empty"` attribute on
each of the nine sub-maps in `components.rs` and serde's `camelCase`
renaming, in field order. The flattened extension map is emitted
separately and is not part of this list. -/
def Components.serializedKindFields (c : Components) : List String :=
  (if c.security_schemes.isEmpty then [] else ["securitySchemes"]) ++
  (if c.responses.isEmpty then [] else ["responses"]) ++
  (if c.parameters.isEmpty then [] else ["parameters"]) ++
  (if c.examples.isEmpty then [] else ["examples"]) ++
  (if c.request_bodies.isEmpty then [] else ["requestBodies"]) ++
  (if c.headers.isEmpty then [] else ["headers"]) ++
  (if c.schemas.isEmpty then [] else ["schemas"]) ++
  (if c.links.isEmpty then [] else ["links"]) ++
  (if c.callbacks.isEmpty then [] else ["callbacks"])

/-- The kind fields of a v3.1 `Components` value whose sub-maps are
non-empty, under the same camel-case names, in the same field order. -/
def v3_1.Components.nonEmptyKindNames (a : v3_1.Components) : List String :=
  (if a.security_schemes.isEmpty then [] else ["securitySchemes"]) ++
  (if a.responses.isEmpty then [] else ["responses"]) ++
  (if a.parameters.isEmpty then [] else ["parameters"]) ++
  (if a.examples.isEmpty then [] else ["examples"]) ++
  (if a.request_bodies.isEmpty then [] else ["requestBodies"]) ++
  (if a.headers.isEmpty then [] else ["headers"]) ++
  (if a.schemas.isEmpty then [] else ["schemas"]) ++
  (if a.links.isEmpty then [] else ["links"]) ++
  (if a.callbacks.isEmpty then [] else ["callbacks"])

theorem mapE_nil {α β : Type} (f : α → Except ConvError β) : mapE f [] = .ok [] := rfl

theorem mapE_cons_ok {α β : Type} (f : α → Except ConvError β) (x : α) (xs : List α)
    (y : β) (ys : List β) (hx : f x = .ok y) (hxs : mapE f xs = .ok ys) :
    mapE f (x :: xs) = .ok (y :: ys) := by
  simp [mapE, hx, hxs]

theorem mapE_cons_err_head {α β : Type} (f : α → Except ConvError β) (x : α) (xs : List α)
    (e : ConvError) (hx : f x = .error e) : mapE f (x :: xs) = .error e := by
  simp [mapE, hx]

theorem mapE_cons_err_tail {α β : Type} (f : α → Except ConvError β) (x : α) (xs : List α)
    (y : β) (e : ConvError) (hx : f x = .ok y) (hxs : mapE f xs = .error e) :
    mapE f (x :: xs) = .error e := by
  simp [mapE, hx, hxs]

/-- A fallible entry map succeeds when every entry's conversion succeeds. -/
theorem mapE_ok_of_forall {α β : Type} (f : α → Except ConvError β) (l : List α)
    (h : ∀ x ∈ l, ∃ y, f x = .ok y) : ∃ ys, mapE f l = .ok ys := by
  induction l with
  | nil => exact ⟨[], rfl⟩
  | cons x xs ih =>
    obtain ⟨y, hy⟩ := h x (List.mem_cons_self x xs)
    obtain ⟨ys, hys⟩ := ih (fun a ha => h a (List.mem_cons_of_mem x ha))
    exact ⟨y :: ys, mapE_cons_ok f x xs y ys hy hys⟩

/-- A successful fallible entry map whose per-entry step keeps the key
preserves the key list, keys and order included. -/
theorem mapE_fst {α β : Type} (f : String × α → Except ConvError (String × β))
    (hf : ∀ kv y, f kv = .ok y → y.1 = kv.1) (l : List (String × α)) :
    ∀ ys, mapE f l = .ok ys → ys.map Prod.fst = l.map Prod.fst := by
  induction l with
  | nil =>
    intro ys h
    rw [mapE_nil] at h
    cases h
    rfl
  | cons x xs ih =>
    intro ys h
    cases hfx : f x with
    | error e => rw [mapE_cons_err_head f x xs e hfx] at h; cases h
    | ok y =>
      cases hm : mapE f xs with
      | error e => rw [mapE_cons_err_tail f x xs y e hfx hm] at h; cases h
      | ok zs =>
        rw [mapE_cons_ok f x xs y zs hfx hm] at h
        cases h
        simp [hf x y hfx, ih zs hm]

/-- All members of a successful fallible entry map's output are outputs
of the per-entry step on some input entry. -/
theorem mapE_mem {α β : Type} (f : α → Except ConvError β) (l : List α) :
    ∀ ys, mapE f l = .ok ys → ∀ y ∈ ys, ∃ x ∈ l, f x = .ok y := by
  induction l with
  | nil =>
    intro ys h
    rw [mapE_nil] at h
    cases h
    intro y hy
    cases hy
  | cons x xs ih =>
    intro ys h
    cases hfx : f x with
    | error e => rw [mapE_cons_err_head f x xs e hfx] at h; cases h
    | ok y =>
      cases hm : mapE f xs with
      | error e => rw [mapE_cons_err_tail f x xs y e hfx hm] at h; cases h
      | ok zs =>
        rw [mapE_cons_ok f x xs y zs hfx hm] at h
        cases h
        intro b hb
        rcases List.mem_cons.mp hb with hb | hb
        · exact ⟨x, List.mem_cons_self x xs, hb ▸ hfx⟩
        · obtain ⟨a, ha, hfa⟩ := ih zs hm b hb
          exact ⟨a, List.mem_cons_of_mem x ha, hfa⟩

/-- A security scheme that is not Mutual-TLS converts successfully. -/
theorem secScheme_ok (s : v3_1.SecurityScheme) (h : s.isMutualTls = false) :
    ∃ t, SecurityScheme.from_v3_1 s = .ok t := by
  cases s with
  | apiKey location name description extensions =>
    exact ⟨_, rfl⟩
  | http scheme bearer_format description extensions =>
    exact ⟨_, rfl⟩
  | oauth2 flows description extensions =>
    exact ⟨_, rfl⟩
  | openIdConnect u description extensions =>
    exact ⟨_, rfl⟩
  | mutualTls description extensions =>
    simp [v3_1.SecurityScheme.isMutualTls] at h

/-- A security scheme cell whose contained scheme (if any) is not
Mutual-TLS converts successfully. -/
theorem secSchemeEntry_ok (kv : String × v3_1.ReferenceOr v3_1.SecurityScheme)
    (h : kv.2.anyItem v3_1.SecurityScheme.isMutualTls = false) :
    ∃ y, secSchemeEntry kv = .ok y := by
  cases hc : kv.2 with
  | reference r =>
    exact ⟨(kv.1, .reference r), by simp [secSchemeEntry, hc, ReferenceOr.from_v3_1E]⟩
  | item s =>
    rw [hc] at h
    obtain ⟨t, ht⟩ := secScheme_ok s h
    exact ⟨(kv.1, .item t), by simp [secSchemeEntry, hc, ReferenceOr.from_v3_1E, ht]⟩
  | dereferencedReference r s =>
    rw [hc] at h
    obtain ⟨t, ht⟩ := secScheme_ok s h
    exact ⟨(kv.1, .item t), by simp [secSchemeEntry, hc, ReferenceOr.from_v3_1E, ht]⟩

/-- A callback map with no Reference-shaped Path Item converts
successfully. -/
theorem callback_ok (cb : v3_1.Callback) (h : v3_1.callbackHasRefEntry cb = false) :
    ∃ ys, callback_from_v3_1 cb = .ok ys := by
  refine mapE_ok_of_forall callbackEntry cb (fun kv hkv => ?_)
  have hnotref : kv.2.isReference = false := by
    by_contra hne
    have : cb.any (fun kv => kv.2.isReference) = true :=
      List.any_eq_true.mpr ⟨kv, hkv, by revert hne; cases kv.2.isReference <;> simp⟩
    rw [v3_1.callbackHasRefEntry] at h
    rw [this] at h
    cases h
  cases hkv2 : kv.2 with
  | reference r => rw [hkv2] at hnotref; simp [v3_1.ReferenceOr.isReference] at hnotref
  | item i => exact ⟨(kv.1, PathItem.from_v3_1 i), by simp [callbackEntry, hkv2]⟩
  | dereferencedReference r i =>
    exact ⟨(kv.1, PathItem.from_v3_1 i), by simp [callbackEntry, hkv2]⟩

/-- Entries of a boolean-`any` scan that came out false all fail the
predicate. -/
theorem any_eq_false_mem {α : Type} {p : α → Bool} {l : List α} (h : l.any p = false)
    {x : α} (hx : x ∈ l) : p x = false := by
  cases hp : p x with
  | false => rfl
  | true =>
    have ht : l.any p = true := List.any_eq_true.mpr ⟨x, hx, hp⟩
    rw [ht] at h
    cases h

/-- A callback cell whose contained callback map (if any) has no
Reference-shaped Path Item converts successfully. -/
theorem callbackCellEntry_ok (kv : String × v3_1.ReferenceOr v3_1.Callback)
    (h : kv.2.anyItem v3_1.callbackHasRefEntry = false) :
    ∃ y, callbackCellEntry kv = .ok y := by
  cases hc : kv.2 with
  | reference r => exact ⟨(kv.1, .reference r), by simp [callbackCellEntry, hc]⟩
  | item i =>
    rw [hc] at h
    obtain ⟨cb, hcb⟩ := callback_ok i h
    exact ⟨(kv.1, .item cb), by simp [callbackCellEntry, hc, hcb]⟩
  | dereferencedReference r i =>
    rw [hc] at h
    obtain ⟨cb, hcb⟩ := callback_ok i h
    exact ⟨(kv.1, .item cb), by simp [callbackCellEntry, hc, hcb]⟩

/-- Inversion: when both fallible sub-maps succeed, the Components
conversion returns the assembled record. -/
theorem components_from_v3_1_eq (a : v3_1.Components)
    (ss : List (String × ReferenceOr SecurityScheme))
    (cbs : List (String × ReferenceOr Callback))
    (hss : mapE secSchemeEntry a.security_schemes = .ok ss)
    (hcbs : mapE callbackCellEntry a.callbacks = .ok cbs) :
    Components.from_v3_1 a =
      .ok
        { security_schemes := ss
          responses := a.responses.map
            (fun kv => (kv.1, ReferenceOr.from_v3_1 Response.from_v3_1 kv.2))
          parameters := a.parameters.map
            (fun kv => (kv.1, ReferenceOr.from_v3_1 Parameter.from_v3_1 kv.2))
          examples := a.examples.map
            (fun kv => (kv.1, ReferenceOr.from_v3_1 Example.from_v3_1 kv.2))
          request_bodies := a.request_bodies.map
            (fun kv => (kv.1, ReferenceOr.from_v3_1 RequestBody.from_v3_1 kv.2))
          headers := a.headers.map
            (fun kv => (kv.1, ReferenceOr.from_v3_1 Header.from_v3_1 kv.2))
          schemas := a.schemas.map
            (fun kv => (kv.1, ReferenceOr.item (Schema.from_v3_1 kv.2)))
          links := a.links.map
            (fun kv => (kv.1, ReferenceOr.from_v3_1 Link.from_v3_1 kv.2))
          callbacks := cbs
          extensions := a.extensions } := by
  simp [Components.from_v3_1, hss, hcbs]

/-- Inversion: a failing security scheme sub-map fails the whole
Components conversion. -/
theorem components_from_v3_1_err_ss (a : v3_1.Components) (e : ConvError)
    (hss : mapE secSchemeEntry a.security_schemes = .error e) :
    Components.from_v3_1 a = .error e := by
  simp [Components.from_v3_1, hss]

/-- Inversion: a failing callbacks sub-map (after a successful security
scheme sub-map) fails the whole Components conversion. -/
theorem components_from_v3_1_err_cb (a : v3_1.Components)
    (ss : List (String × ReferenceOr SecurityScheme)) (e : ConvError)
    (hss : mapE secSchemeEntry a.security_schemes = .ok ss)
    (hcbs : mapE callbackCellEntry a.callbacks = .error e) :
    Components.from_v3_1 a = .error e := by
  simp [Components.from_v3_1, hss, hcbs]

/-- The security scheme entry step keeps the entry's key. -/
theorem secSchemeEntry_fst (kv : String × v3_1.ReferenceOr v3_1.SecurityScheme)
    (y : String × ReferenceOr SecurityScheme) (h : secSchemeEntry kv = .ok y) :
    y.1 = kv.1 := by
  unfold secSchemeEntry at h
  split at h
  · cases h
  · cases h
    rfl

/-- The callback cell entry step keeps the entry's key. -/
theorem callbackCellEntry_fst (kv : String × v3_1.ReferenceOr v3_1.Callback)
    (y : String × ReferenceOr Callback) (h : callbackCellEntry kv = .ok y) :
    y.1 = kv.1 := by
  unfold callbackCellEntry at h
  split at h
  · split at h
    · cases h
    · cases h
      rfl
  · cases h
    rfl
  · split at h
    · cases h
    · cases h
      rfl

/-- Association lists with the same key list are empty together. -/
theorem isEmpty_of_map_fst {α β : Type} {l : List (String × α)} {m : List (String × β)}
    (h : m.map Prod.fst = l.map Prod.fst) : m.isEmpty = l.isEmpty := by
  cases l <;> cases m <;> simp_all

/-- C2: converting a v3.1 Mutual-TLS security scheme to the v3.0
revision returns the unsupported-feature-on-downgrade error (the
`panic!` in `security_scheme.rs`), whatever its description and
extensions: no partial v3.0 scheme is produced. -/
theorem mutual_tls_downgrade_fatal (description : Option String) (extensions : Extensions) :
    SecurityScheme.from_v3_1 (v3_1.SecurityScheme.mutualTls description extensions) =
      .error (.unsupportedDowngrade "MutualTLS is not supported in Open API 3.0.x") := rfl

/-- C4: for every contained type and every inner conversion, the
Reference Cell conversion maps the Reference shape to a Reference shape
with the identical string, the Item shape to an Item around the
converted value, and the Dereferenced Reference shape to a plain Item
around the converted value, the reference string discarded; this is
generic in the contained type, so it covers schema cells as well. -/
theorem refcell_conversion_shape_rule {X T : Type} (f : X → T) (r : String) (x : X) :
    ReferenceOr.from_v3_1 f (v3_1.ReferenceOr.reference r) =
        (ReferenceOr.reference r : ReferenceOr T) ∧
    ReferenceOr.from_v3_1 f (v3_1.ReferenceOr.item x) = ReferenceOr.item (f x) ∧
    ReferenceOr.from_v3_1 f (v3_1.ReferenceOr.dereferencedReference r x) =
        ReferenceOr.item (f x) :=
  ⟨rfl, rfl, rfl⟩

/-- C5: the OAuth2 flow-set conversion is slot-wise: each of the four
v3.0 slots holds exactly the converted v3.1 slot, so a slot is populated
in the result precisely when the corresponding v3.1 slot is occupied
(hence one occupied slot yields exactly that slot populated). -/
theorem oauth2_flows_slotwise (s : v3_1.OAuth2Flows) :
    ((OAuth2Flows.from_v3_1 s).implicit = s.implicit.map OAuth2Flow.from_v3_1 ∧
     (OAuth2Flows.from_v3_1 s).password = s.password.map OAuth2Flow.from_v3_1 ∧
     (OAuth2Flows.from_v3_1 s).client_credentials =
        s.client_credentials.map OAuth2Flow.from_v3_1 ∧
     (OAuth2Flows.from_v3_1 s).authorization_code =
        s.authorization_code.map OAuth2Flow.from_v3_1) ∧
    ((OAuth2Flows.from_v3_1 s).implicit.isSome = s.implicit.isSome ∧
     (OAuth2Flows.from_v3_1 s).password.isSome = s.password.isSome ∧
     (OAuth2Flows.from_v3_1 s).client_credentials.isSome = s.client_credentials.isSome ∧
     (OAuth2Flows.from_v3_1 s).authorization_code.isSome = s.authorization_code.isSome) := by
  refine ⟨⟨rfl, rfl, rfl, rfl⟩, ?_, ?_, ?_, ?_⟩ <;> simp [OAuth2Flows.from_v3_1]

/-- C8: `into_item` yields the contained value for the Item and
Dereferenced Reference shapes and nothing for the Reference shape (it is
empty exactly on the Reference shape), it is total, and `as_item` agrees
with it on every cell; all of this is generic in the contained type,
nested Reference Cells included. -/
theorem into_item_as_item_rule {T : Type} (r : String) (t : T) (c : ReferenceOr T) :
    ReferenceOr.into_item (ReferenceOr.reference r : ReferenceOr T) = none ∧
    ReferenceOr.into_item (ReferenceOr.item t) = some t ∧
    ReferenceOr.into_item (ReferenceOr.dereferencedReference r t) = some t ∧
    c.into_item.isNone = c.isReference ∧
    c.as_item = c.into_item := by
  refine ⟨rfl, rfl, rfl, ?_, ?_⟩ <;> cases c <;> rfl

/-- C7: converting a v3.1 Server with an empty variable map yields an
absent (`none`) v3.0 variable map, and converting one with a non-empty
variable map yields a present map holding exactly the entry-wise
converted entries, keys and order preserved. -/
theorem server_variables_normalization (s : v3_1.Server) :
    (s.variables_ = [] → (Server.from_v3_1 s).variables_ = none) ∧
    (s.variables_ ≠ [] →
      (Server.from_v3_1 s).variables_ =
        some (s.variables_.map (fun kv => (kv.1, ServerVariable.from_v3_1 kv.2)))) := by
  constructor
  · intro h
    simp [Server.from_v3_1, h]
  · intro h
    cases hv : s.variables_ with
    | nil => exact absurd hv h
    | cons a l => simp [Server.from_v3_1, hv]

/-- A v3.1 Server with no variables. -/
def exServerEmpty : v3_1.Server :=
  { url := "https://example.com", description := none, variables_ := [], extensions := [] }

/-- A v3.1 Server with one variable. -/
def exServerPort : v3_1.Server :=
  { url := "https://example.com", description := none,
    variables_ := [("port", ⟨"8080"⟩)], extensions := [] }

/-- Witness for C7 at two concrete servers: the empty variable map
becomes absent, the one-entry map stays present holding exactly its
converted entry. -/
theorem server_variables_normalization_witness :
    (Server.from_v3_1 exServerEmpty).variables_ = none ∧
    (Server.from_v3_1 exServerPort).variables_ =
      some [("port", ServerVariable.from_v3_1 ⟨"8080"⟩)] :=
  ⟨(server_variables_normalization exServerEmpty).1 rfl,
   (server_variables_normalization exServerPort).2 (by simp [exServerPort])⟩

/-- C3: a v3.1 callback map with at least one Reference-shaped Path Item
entry fails to convert, with the structural-invariant-violation error
(the `panic!` in `callback.rs`) — the offending entry is not skipped. -/
theorem callback_ref_pathitem_fatal (cb : v3_1.Callback)
    (h : v3_1.callbackHasRefEntry cb = true) :
    callback_from_v3_1 cb = .error (.invariantViolation "PathItems cannot be $ref") := by
  induction cb with
  | nil => simp [v3_1.callbackHasRefEntry] at h
  | cons kv rest ih =>
    cases hc : kv.2 with
    | reference r =>
      exact mapE_cons_err_head callbackEntry kv rest _ (by simp [callbackEntry, hc])
    | item i =>
      have hrest : v3_1.callbackHasRefEntry rest = true := by
        rw [v3_1.callbackHasRefEntry, List.any_cons, hc] at h
        rw [v3_1.callbackHasRefEntry]
        simpa only [v3_1.ReferenceOr.isReference, Bool.false_or] using h
      exact mapE_cons_err_tail callbackEntry kv rest (kv.1, PathItem.from_v3_1 i) _
        (by simp [callbackEntry, hc]) (ih hrest)
    | dereferencedReference r i =>
      have hrest : v3_1.callbackHasRefEntry rest = true := by
        rw [v3_1.callbackHasRefEntry, List.any_cons, hc] at h
        rw [v3_1.callbackHasRefEntry]
        simpa only [v3_1.ReferenceOr.isReference, Bool.false_or] using h
      exact mapE_cons_err_tail callbackEntry kv rest (kv.1, PathItem.from_v3_1 i) _
        (by simp [callbackEntry, hc]) (ih hrest)

/-- A v3.1 callback map with a Reference-shaped Path Item entry. -/
def exRefCallback : v3_1.Callback :=
  [("{$request.body#/url}", v3_1.ReferenceOr.reference "#/components/pathItems/cb")]

/-- Witness for C3 at a concrete one-entry callback map. -/
theorem callback_ref_pathitem_fatal_witness :
    v3_1.callbackHasRefEntry exRefCallback = true ∧
    callback_from_v3_1 exRefCallback =
      .error (.invariantViolation "PathItems cannot be $ref") :=
  ⟨rfl, callback_ref_pathitem_fatal exRefCallback rfl⟩

/-- C9 counterexample: at a concrete Dereferenced Reference cell (over
`Json`, serialized by the identity), the serialized external form is
neither the external form of the Reference with the same reference
string nor the external form of the Item with the same contained value:
the derived untagged serialization emits a distinct two-field object. -/
theorem deref_serialization_distinct_form :
    serializeRefOr (fun j => j)
        (ReferenceOr.dereferencedReference "#/components/schemas/Pet" Json.null) ≠
      serializeRefOr (fun j => j)
        (ReferenceOr.reference "#/components/schemas/Pet" : ReferenceOr Json) ∧
    serializeRefOr (fun j => j)
        (ReferenceOr.dereferencedReference "#/components/schemas/Pet" Json.null) ≠
      serializeRefOr (fun j => j) (ReferenceOr.item Json.null) := by
  constructor
  · intro h
    simp [serializeRefOr] at h
  · intro h
    simp [serializeRefOr] at h

/-- C9 (amended): the Reference shape serializes as the single-key
`$ref` object and the Item shape as the plain contained object, while
the Dereferenced Reference shape serializes as a distinct two-field
object holding the reference string and the contained value (the
converter, not the serializer, is what collapses it to Item on a
downgrade). -/
theorem refcell_serialization_forms {T : Type} (serT : T → Json) (r : String) (t : T) :
    serializeRefOr serT (ReferenceOr.reference r : ReferenceOr T) =
        Json.obj [("$ref", Json.str r)] ∧
    serializeRefOr serT (ReferenceOr.item t) = serT t ∧
    serializeRefOr serT (ReferenceOr.dereferencedReference r t) =
        Json.obj [("reference", Json.str r), ("item", serT t)] :=
  ⟨rfl, rfl, rfl⟩

/-- C1: converting a v3.1 Components registry that contains no
Mutual-TLS security scheme and no Reference-shaped Path Item inside a
callback map always succeeds: no error is raised on any sub-tree (the
remaining object kinds convert by total functions). -/
theorem components_conversion_total (a : v3_1.Components)
    (h1 : a.hasMutualTls = false) (h2 : a.hasRefPathItem = false) :
    isOk (Components.from_v3_1 a) = true := by
  obtain ⟨ss, hss⟩ := mapE_ok_of_forall secSchemeEntry a.security_schemes
    (fun kv hkv => secSchemeEntry_ok kv (any_eq_false_mem h1 hkv))
  obtain ⟨cbs, hcbs⟩ := mapE_ok_of_forall callbackCellEntry a.callbacks
    (fun kv hkv => callbackCellEntry_ok kv (any_eq_false_mem h2 hkv))
  rw [components_from_v3_1_eq a ss cbs hss hcbs]
  rfl

/-- A v3.1 Components registry exercising every convertible feature
except the two fatal ones. -/
def exComponentsOk : v3_1.Components :=
  { security_schemes :=
      [("key", v3_1.ReferenceOr.item
          (v3_1.SecurityScheme.apiKey .header "X-Api-Key" none []))]
    responses := [("ok", v3_1.ReferenceOr.reference "#/components/responses/ok")]
    parameters := []
    examples := []
    request_bodies := []
    headers := []
    schemas := [("Pet", ⟨"pet-schema"⟩)]
    links := []
    callbacks :=
      [("cb", v3_1.ReferenceOr.item [("{$url}", v3_1.ReferenceOr.item ⟨"pi"⟩)])]
    extensions := [] }

/-- Witness for C1 at a concrete registry free of both fatal features. -/
theorem components_conversion_total_witness :
    v3_1.Components.hasMutualTls exComponentsOk = false ∧
    v3_1.Components.hasRefPathItem exComponentsOk = false ∧
    isOk (Components.from_v3_1 exComponentsOk) = true :=
  ⟨rfl, rfl, components_conversion_total exComponentsOk rfl rfl⟩

/-- C6: a successful Components conversion preserves, within each of the
nine reusable-object kinds, the key list (keys and order), and the
serialized form of the result emits exactly the kind fields that were
non-empty in the input — an empty kind stays empty and is omitted. -/
theorem components_keys_and_omission (a : v3_1.Components) (r : Components)
    (h : Components.from_v3_1 a = .ok r) :
    (r.security_schemes.map Prod.fst = a.security_schemes.map Prod.fst ∧
     r.responses.map Prod.fst = a.responses.map Prod.fst ∧
     r.parameters.map Prod.fst = a.parameters.map Prod.fst ∧
     r.examples.map Prod.fst = a.examples.map Prod.fst ∧
     r.request_bodies.map Prod.fst = a.request_bodies.map Prod.fst ∧
     r.headers.map Prod.fst = a.headers.map Prod.fst ∧
     r.schemas.map Prod.fst = a.schemas.map Prod.fst ∧
     r.links.map Prod.fst = a.links.map Prod.fst ∧
     r.callbacks.map Prod.fst = a.callbacks.map Prod.fst) ∧
    r.serializedKindFields = v3_1.Components.nonEmptyKindNames a := by
  cases hss : mapE secSchemeEntry a.security_schemes with
  | error e =>
    rw [components_from_v3_1_err_ss a e hss] at h
    cases h
  | ok ss =>
    cases hcbs : mapE callbackCellEntry a.callbacks with
    | error e =>
      rw [components_from_v3_1_err_cb a ss e hss hcbs] at h
      cases h
    | ok cbs =>
      rw [components_from_v3_1_eq a ss cbs hss hcbs] at h
      cases h
      have k1 := mapE_fst secSchemeEntry secSchemeEntry_fst a.security_schemes ss hss
      have k9 := mapE_fst callbackCellEntry callbackCellEntry_fst a.callbacks cbs hcbs
      have k2 : (a.responses.map
          (fun kv => (kv.1, ReferenceOr.from_v3_1 Response.from_v3_1 kv.2))).map Prod.fst =
          a.responses.map Prod.fst := by simp
      have k3 : (a.parameters.map
          (fun kv => (kv.1, ReferenceOr.from_v3_1 Parameter.from_v3_1 kv.2))).map Prod.fst =
          a.parameters.map Prod.fst := by simp
      have k4 : (a.examples.map
          (fun kv => (kv.1, ReferenceOr.from_v3_1 Example.from_v3_1 kv.2))).map Prod.fst =
          a.examples.map Prod.fst := by simp
      have k5 : (a.request_bodies.map
          (fun kv => (kv.1, ReferenceOr.from_v3_1 RequestBody.from_v3_1 kv.2))).map Prod.fst =
          a.request_bodies.map Prod.fst := by simp
      have k6 : (a.headers.map
          (fun kv => (kv.1, ReferenceOr.from_v3_1 Header.from_v3_1 kv.2))).map Prod.fst =
          a.headers.map Prod.fst := by simp
      have k7 : (a.schemas.map
          (fun kv => (kv.1, ReferenceOr.item (Schema.from_v3_1 kv.2)))).map Prod.fst =
          a.schemas.map Prod.fst := by simp
      have k8 : (a.links.map
          (fun kv => (kv.1, ReferenceOr.from_v3_1 Link.from_v3_1 kv.2))).map Prod.fst =
          a.links.map Prod.fst := by simp
      refine ⟨⟨k1, k2, k3, k4, k5, k6, k7, k8, k9⟩, ?_⟩
      unfold Components.serializedKindFields v3_1.Components.nonEmptyKindNames
      dsimp only
      rw [isEmpty_of_map_fst k1, isEmpty_of_map_fst k2, isEmpty_of_map_fst k3,
        isEmpty_of_map_fst k4, isEmpty_of_map_fst k5, isEmpty_of_map_fst k6,
        isEmpty_of_map_fst k7, isEmpty_of_map_fst k8, isEmpty_of_map_fst k9]

/-- A v3.1 Components registry with two kinds occupied (one with two
keys in a fixed order) and the rest empty. -/
def exComponentsC6 : v3_1.Components :=
  { security_schemes := []
    responses :=
      [("notFound", v3_1.ReferenceOr.reference "#/components/responses/notFound"),
       ("ok", v3_1.ReferenceOr.item ⟨"ok-response"⟩)]
    parameters := []
    examples := []
    request_bodies := []
    headers := []
    schemas := [("Pet", ⟨"pet-schema"⟩)]
    links := []
    callbacks := []
    extensions := [] }

/-- The converted form of `exComponentsC6`. -/
def exComponentsC6Out : Components :=
  { security_schemes := []
    responses :=
      [("notFound", ReferenceOr.reference "#/components/responses/notFound"),
       ("ok", ReferenceOr.item ⟨"ok-response"⟩)]
    parameters := []
    examples := []
    request_bodies := []
    headers := []
    schemas := [("Pet", ReferenceOr.item ⟨"pet-schema"⟩)]
    links := []
    callbacks := []
    extensions := [] }

/-- Witness for C6 at a concrete registry: the conversion succeeds and
the result emits exactly the input's non-empty kind fields. -/
theorem components_keys_and_omission_witness :
    Components.from_v3_1 exComponentsC6 = .ok exComponentsC6Out ∧
    exComponentsC6Out.serializedKindFields =
      v3_1.Components.nonEmptyKindNames exComponentsC6 :=
  ⟨rfl, (components_keys_and_omission exComponentsC6 exComponentsC6Out rfl).2⟩

/-- Is an optional schema cell absent or Item-shaped? -/
def optSchemaIsItem : Option (ReferenceOr Schema) → Bool
  | none => true
  | some c => c.isItem

/-- A v3.1 Components registry with a schema entry and a
Reference-shaped response cell. -/
def exComponentsC10 : v3_1.Components :=
  { security_schemes := []
    responses := [("err", v3_1.ReferenceOr.reference "#/components/responses/err")]
    parameters := []
    examples := []
    request_bodies := []
    headers := []
    schemas := [("Pet", ⟨"pet-schema"⟩)]
    links := []
    callbacks := []
    extensions := [] }

/-- The converted form of `exComponentsC10`. -/
def exComponentsC10Out : Components :=
  { security_schemes := []
    responses := [("err", ReferenceOr.reference "#/components/responses/err")]
    parameters := []
    examples := []
    request_bodies := []
    headers := []
    schemas := [("Pet", ReferenceOr.item ⟨"pet-schema"⟩)]
    links := []
    callbacks := []
    extensions := [] }

/-- C10: after a successful Components conversion every schema cell is
Item-shaped, and a converted MediaType's schema cell, when present, is
Item-shaped; by contrast, a cell of another kind (here a response) can
remain Reference-shaped, as the concrete registry shows. -/
theorem schema_cells_always_item :
    (∀ a r, Components.from_v3_1 a = .ok r →
      r.schemas.all (fun kv => kv.2.isItem) = true) ∧
    (∀ m : v3_1.MediaType, optSchemaIsItem (MediaType.from_v3_1 m).schema = true) ∧
    (Components.from_v3_1 exComponentsC10 = .ok exComponentsC10Out ∧
      exComponentsC10Out.responses.any (fun kv => kv.2.isReference) = true) := by
  refine ⟨?_, ?_, rfl, rfl⟩
  · intro a r h
    cases hss : mapE secSchemeEntry a.security_schemes with
    | error e =>
      rw [components_from_v3_1_err_ss a e hss] at h
      cases h
    | ok ss =>
      cases hcbs : mapE callbackCellEntry a.callbacks with
      | error e =>
        rw [components_from_v3_1_err_cb a ss e hss hcbs] at h
        cases h
      | ok cbs =>
        rw [components_from_v3_1_eq a ss cbs hss hcbs] at h
        cases h
        simp [List.all_eq_true, ReferenceOr.isItem]
        intro k c k2 s hmem hk hc
        subst hc
        rfl
  · intro m
    cases hs : m.schema <;>
      simp [MediaType.from_v3_1, optSchemaIsItem, hs, ReferenceOr.isItem]

/-- Witness for C10 at the concrete registry: its converted schema
sub-map (one entry) is all Item-shaped. -/
theorem schema_cells_always_item_witness :
    exComponentsC10Out.schemas.all (fun kv => kv.2.isItem) = true :=
  schema_cells_always_item.1 exComponentsC10 exComponentsC10Out rfl

end OpenAPI
